import Mathlib

/-!
Shallow embedding of the authentication and authorization subsystem of the
Nano-admin repository: the storage layer (`server/storage.ts`, class
`DatabaseStorage`), the token helpers (`server/auth.ts`), the request
middlewares (`server/middleware.ts`) and the auth route handlers
(registered in the routes file).  Rows of the relational tables are Lean
structures, a database snapshot is a `Storage` record of lists, and each
route handler is a pure function from its parsed inputs, the current
time, and the fresh identifiers/random strings the runtime would draw,
to a response paired with the successor storage state.
-/

namespace NanoAdmin

/-- A row of the `users` table (shared/schema.ts). -/
structure User where
  id : Nat
  email : String
  password : String
  name : String
  role : String
  status : String
  isDeleted : Bool
  lastLoginAt : Option Nat
  deriving Repr, DecidableEq

/-- A row of the `verification_codes` table (shared/schema.ts). -/
structure VerificationCode where
  id : Nat
  email : String
  code : String
  expiresAt : Nat
  used : Bool
  apiKeyId : Option Nat
  apiKeyName : Option String
  autoApprove : Bool
  deriving Repr, DecidableEq

/-- A row of the `refresh_tokens` table (shared/schema.ts). -/
structure RefreshToken where
  id : Nat
  userId : Nat
  token : String
  expiresAt : Nat
  deriving Repr, DecidableEq

/-- A row of the `api_keys` table (shared/schema.ts). -/
structure ApiKey where
  id : Nat
  userId : Nat
  name : String
  key : String
  isActive : Bool
  lastUsedAt : Option Nat
  deriving Repr, DecidableEq

/-- A row of the `external_signup_keys` table (shared/schema.ts). -/
structure ExternalSignupKey where
  id : Nat
  projectId : Nat
  apiKey : String
  name : String
  isActive : Bool
  autoApproveSignup : Bool
  lastUsedAt : Option Nat
  deriving Repr, DecidableEq

/-- A row of the `activities` table (shared/schema.ts). -/
structure Activity where
  userId : Option Nat
  action : String
  details : Option String
  ipAddress : Option String
  deriving Repr, DecidableEq

/-- A row of the `audit_logs` table (shared/schema.ts). -/
structure AuditLog where
  userId : Option Nat
  projectId : Option Nat
  action : String
  resource : String
  resourceId : Option Nat
  ipAddress : Option String
  source : String
  deriving Repr, DecidableEq

/-- A snapshot of the database tables touched by the auth subsystem. -/
structure Storage where
  users : List User
  verificationCodes : List VerificationCode
  refreshTokens : List RefreshToken
  apiKeys : List ApiKey
  externalSignupKeys : List ExternalSignupKey
  activities : List Activity
  auditLogs : List AuditLog
  deriving Repr, DecidableEq

/-! ### DatabaseStorage methods (server/storage.ts) -/

/-- `DatabaseStorage.getUser`: first row with matching id among non-deleted users. -/
def getUser (s : Storage) (id : Nat) : Option User :=
  (s.users.filter (fun u => u.id == id && u.isDeleted == false)).head?

/-- `DatabaseStorage.getUserByEmail`: first non-deleted row with matching email. -/
def getUserByEmail (s : Storage) (email : String) : Option User :=
  (s.users.filter (fun u => u.email == email && u.isDeleted == false)).head?

/-- `DatabaseStorage.createUser`: insert the row and return it. -/
def createUser (s : Storage) (u : User) : Storage × User :=
  ({ s with users := s.users ++ [u] }, u)

/-- The `Partial<User>` update objects actually passed to `storage.updateUser`
by the auth routes: each field is `some v` when present in the update. -/
structure UserUpdates where
  email : Option String
  password : Option String
  name : Option String
  role : Option String
  status : Option String
  lastLoginAt : Option (Option Nat)
  deriving Repr, DecidableEq

/-- The empty update object. -/
def noUserUpdates : UserUpdates := ⟨none, none, none, none, none, none⟩

/-- Apply a partial update to a user row, as drizzle `set(updates)` does. -/
def applyUserUpdates (upd : UserUpdates) (u : User) : User :=
  { u with
    email := upd.email.getD u.email
    password := upd.password.getD u.password
    name := upd.name.getD u.name
    role := upd.role.getD u.role
    status := upd.status.getD u.status
    lastLoginAt := upd.lastLoginAt.getD u.lastLoginAt }

/-- `DatabaseStorage.updateUser`: update rows where id matches (no soft-delete
filter in the source), returning the first updated row. -/
def updateUser (s : Storage) (id : Nat) (upd : UserUpdates) : Storage × Option User :=
  let updated := s.users.map (fun u => if u.id == id then applyUserUpdates upd u else u)
  ({ s with users := updated }, (updated.filter (fun u => u.id == id)).head?)

/-- `DatabaseStorage.deleteUser`: soft delete — set `isDeleted` where id matches. -/
def deleteUser (s : Storage) (id : Nat) : Storage × Bool :=
  let updated := s.users.map (fun u => if u.id == id then { u with isDeleted := true } else u)
  ({ s with users := updated }, s.users.any (fun u => u.id == id))

/-- `DatabaseStorage.createVerificationCode`. -/
def createVerificationCode (s : Storage) (v : VerificationCode) : Storage :=
  { s with verificationCodes := s.verificationCodes ++ [v] }

/-- `DatabaseStorage.getVerificationCode`: first row matching email and code
with `used = false`. -/
def getVerificationCode (s : Storage) (email code : String) : Option VerificationCode :=
  (s.verificationCodes.filter
    (fun v => v.email == email && v.code == code && v.used == false)).head?

/-- `DatabaseStorage.markVerificationCodeUsed`: set `used` where id matches. -/
def markVerificationCodeUsed (s : Storage) (id : Nat) : Storage :=
  { s with verificationCodes :=
      s.verificationCodes.map (fun v => if v.id == id then { v with used := true } else v) }

/-- `DatabaseStorage.createRefreshToken`. -/
def createRefreshToken (s : Storage) (t : RefreshToken) : Storage :=
  { s with refreshTokens := s.refreshTokens ++ [t] }

/-- `DatabaseStorage.getRefreshToken`: lookup by token string. -/
def getRefreshToken (s : Storage) (token : String) : Option RefreshToken :=
  (s.refreshTokens.filter (fun t => t.token == token)).head?

/-- `DatabaseStorage.deleteRefreshToken`: delete rows with this token string. -/
def deleteRefreshToken (s : Storage) (token : String) : Storage :=
  { s with refreshTokens := s.refreshTokens.filter (fun t => !(t.token == token)) }

/-- `DatabaseStorage.deleteUserRefreshTokens`: delete all rows of one user. -/
def deleteUserRefreshTokens (s : Storage) (userId : Nat) : Storage :=
  { s with refreshTokens := s.refreshTokens.filter (fun t => !(t.userId == userId)) }

/-- `DatabaseStorage.createActivity`. -/
def createActivity (s : Storage) (a : Activity) : Storage :=
  { s with activities := s.activities ++ [a] }

/-- `DatabaseStorage.createAuditLog`. -/
def createAuditLog (s : Storage) (a : AuditLog) : Storage :=
  { s with auditLogs := s.auditLogs ++ [a] }

/-- `DatabaseStorage.getApiKeyByKey`: lookup by secret string. -/
def getApiKeyByKey (s : Storage) (key : String) : Option ApiKey :=
  (s.apiKeys.filter (fun k => k.key == key)).head?

/-- The `Partial<ApiKey>` update objects the middlewares pass to
`storage.updateApiKey`. -/
structure ApiKeyUpdates where
  isActive : Option Bool
  lastUsedAt : Option (Option Nat)
  deriving Repr, DecidableEq

/-- The empty API-key update object. -/
def noApiKeyUpdates : ApiKeyUpdates := ⟨none, none⟩

/-- Apply a partial update to an API-key row. -/
def applyApiKeyUpdates (upd : ApiKeyUpdates) (k : ApiKey) : ApiKey :=
  { k with
    isActive := upd.isActive.getD k.isActive
    lastUsedAt := upd.lastUsedAt.getD k.lastUsedAt }

/-- `DatabaseStorage.updateApiKey`: update rows where id matches, return first. -/
def updateApiKey (s : Storage) (id : Nat) (upd : ApiKeyUpdates) : Storage × Option ApiKey :=
  let updated := s.apiKeys.map (fun k => if k.id == id then applyApiKeyUpdates upd k else k)
  ({ s with apiKeys := updated }, (updated.filter (fun k => k.id == id)).head?)

/-- `DatabaseStorage.getExternalSignupKey`: lookup by secret string. -/
def getExternalSignupKey (s : Storage) (apiKey : String) : Option ExternalSignupKey :=
  (s.externalSignupKeys.filter (fun k => k.apiKey == apiKey)).head?

/-- The update object `POST /api/public/signup` passes to
`storage.updateExternalSignupKey` (only `lastUsedAt`). -/
def updateExternalSignupKeyLastUsed (s : Storage) (id : Nat) (now : Nat) : Storage :=
  { s with externalSignupKeys :=
      s.externalSignupKeys.map (fun k =>
        if k.id == id then { k with lastUsedAt := some now } else k) }

/-! ### Helpers from server/auth.ts

`bcrypt` is modelled abstractly by an injective tagging so that
`comparePassword p h` holds exactly when `h` is the hash of `p`, the
contract `verify(p, hash(p)) = true` the code relies on. -/

/-- `hashPassword` (server/auth.ts), modelled as an injective tag. -/
def hashPassword (password : String) : String := "bcrypt$" ++ password

/-- `comparePassword` (server/auth.ts): true iff the hash is that of the password. -/
def comparePassword (password hash : String) : Bool := hashPassword password == hash

/-- The JWT claim set (`TokenPayload` in server/auth.ts). -/
structure TokenPayload where
  userId : Nat
  email : String
  role : String
  deriving Repr, DecidableEq

/-- `generateAccessToken` (server/auth.ts): a signed token carrying
`{userId, email, role}`; the signature itself is abstracted into the tag. -/
def generateAccessToken (u : User) : String :=
  "jwt$" ++ toString u.id ++ "$" ++ u.email ++ "$" ++ u.role

/-- `getRefreshTokenExpiry` (server/auth.ts): now + 7 days, in milliseconds. -/
def getRefreshTokenExpiry (now : Nat) : Nat := now + 7 * 24 * 60 * 60 * 1000

/-- `getVerificationCodeExpiry` (server/auth.ts): now + 10 minutes, in milliseconds. -/
def getVerificationCodeExpiry (now : Nat) : Nat := now + 10 * 60 * 1000

/-- `String.startsWith`, evaluated on the underlying character lists so
that concrete instances reduce. -/
def strStartsWith (s p : String) : Bool := p.data.isPrefixOf s.data

/-- `String.prototype.substring(n)` / `String.drop`, on character lists. -/
def strDrop (s : String) (n : Nat) : String := ⟨s.data.drop n⟩

/-! ### Middlewares (server/middleware.ts)

`verifyAccessToken` wraps `jwt.verify`; its outcome is supplied to the
middleware as an oracle `verifyTok : String → Option TokenPayload`. -/

/-- Result of an authorization middleware: a failure response, or the
identity attached to the request (`req.user`, and `req.apiKey` /
`req.tokenPayload` when present). -/
inductive MwResult where
  | err (status : Nat) (message : String)
  | okApiKey (user : User)
  | okJwt (user : User) (payload : TokenPayload)
  | okExternal (user : User) (apiKey : ApiKey)
  deriving Repr, DecidableEq

/-- `authMiddleware` (server/middleware.ts): bearer header; `nano_`-prefixed
tokens resolve as API keys, anything else as a signed access token. -/
def authMiddleware (s : Storage) (authHeader : Option String)
    (verifyTok : String → Option TokenPayload) (now : Nat) : MwResult × Storage :=
  match authHeader with
  | none => (.err 401 "Authorization required", s)
  | some h =>
    if !(strStartsWith h "Bearer ") then (.err 401 "Authorization required", s)
    else
      let token := strDrop h 7
      if strStartsWith token "nano_" then
        match getApiKeyByKey s token with
        | none => (.err 401 "Invalid or disabled API key", s)
        | some apiKey =>
          if !apiKey.isActive then (.err 401 "Invalid or disabled API key", s)
          else
            let s1 := (updateApiKey s apiKey.id
              { noApiKeyUpdates with lastUsedAt := some (some now) }).1
            match getUser s1 apiKey.userId with
            | none => (.err 401 "User not found or inactive", s1)
            | some user =>
              if !(user.status == "active") then
                (.err 401 "User not found or inactive", s1)
              else (.okApiKey user, s1)
      else
        match verifyTok token with
        | none => (.err 401 "Invalid or expired token", s)
        | some payload =>
          match getUser s payload.userId with
          | none => (.err 401 "User not found", s)
          | some user =>
            if !(user.status == "active") then (.err 403 "Account not active", s)
            else (.okJwt user payload, s)

/-- `apiKeyMiddleware` (server/middleware.ts): identity from the `X-API-Key`
header. -/
def apiKeyMiddleware (s : Storage) (apiKeyHeader : Option String) (now : Nat) :
    MwResult × Storage :=
  match apiKeyHeader with
  | none => (.err 401 "API key required. Provide X-API-Key header.", s)
  | some h =>
    match getApiKeyByKey s h with
    | none => (.err 401 "Invalid or disabled API key", s)
    | some apiKey =>
      if !apiKey.isActive then (.err 401 "Invalid or disabled API key", s)
      else
        let s1 := (updateApiKey s apiKey.id
          { noApiKeyUpdates with lastUsedAt := some (some now) }).1
        match getUser s1 apiKey.userId with
        | none => (.err 401 "API key owner not found or inactive", s1)
        | some user =>
          if !(user.status == "active") then
            (.err 401 "API key owner not found or inactive", s1)
          else (.okExternal user apiKey, s1)

/-! ### Route handlers (routes file)

Each handler is modelled after its request body has passed zod parsing:
the parsed fields are arguments.  `new Date()` is the `now` argument;
generated ids, verification codes and refresh-token strings are the
`fresh*` arguments (the runtime draws them randomly). -/

/-- The user object with the `password` field stripped, as the routes
return it (`const (password: _, ...userWithoutPassword) = user`). -/
structure PublicUser where
  id : Nat
  email : String
  name : String
  role : String
  status : String
  isDeleted : Bool
  lastLoginAt : Option Nat
  deriving Repr, DecidableEq

/-- Strip the password from a user row. -/
def withoutPassword (u : User) : PublicUser :=
  ⟨u.id, u.email, u.name, u.role, u.status, u.isDeleted, u.lastLoginAt⟩

/-- Response of `POST /api/public/signup`. -/
inductive SignupResult where
  | err (status : Nat) (message : String)
  | created (status : Nat) (message : String)
  deriving Repr, DecidableEq

/-- Handler of `POST /api/public/signup` (routes file): external signup
gated by an External Signup Key in the `X-API-Key` header. -/
def publicSignup (s : Storage) (apiKeyHeader : Option String)
    (email password name : String) (now freshUserId freshCodeId : Nat)
    (freshCode ip : String) : SignupResult × Storage :=
  match apiKeyHeader with
  | none => (.err 401 "API key required", s)
  | some apiKey =>
    match getExternalSignupKey s apiKey with
    | none => (.err 401 "Invalid API key", s)
    | some signupKey =>
      if !signupKey.isActive then (.err 401 "Invalid API key", s)
      else
        match getUserByEmail s email with
        | some _ => (.err 400 "Email already registered", s)
        | none =>
          let hashedPassword := hashPassword password
          let user : User :=
            { id := freshUserId, email := email, password := hashedPassword,
              name := name, role := "user",
              status := if signupKey.autoApproveSignup then "active" else "pending",
              isDeleted := false, lastLoginAt := none }
          let s1 := (createUser s user).1
          let s2 := createVerificationCode s1
            { id := freshCodeId, email := email, code := freshCode,
              expiresAt := getVerificationCodeExpiry now, used := false,
              apiKeyId := some signupKey.id, apiKeyName := some signupKey.name,
              autoApprove := signupKey.autoApproveSignup }
          let s3 := updateExternalSignupKeyLastUsed s2 signupKey.id now
          let s4 := createAuditLog s3
            { userId := some user.id, projectId := some signupKey.projectId,
              action := "create", resource := "user", resourceId := some user.id,
              ipAddress := some ip, source := "api" }
          (.created 201 "Verification code sent to email", s4)

/-- Response of the verification and other message-only endpoints. -/
inductive MsgResult where
  | err (status : Nat) (message : String)
  | ok (message : String)
  deriving Repr, DecidableEq

/-- Handler of `POST /api/auth/verify` (routes file): general email
verification; marks the code used, logs, does not touch the user row. -/
def authVerify (s : Storage) (email code : String) (now : Nat) (ip : String) :
    MsgResult × Storage :=
  match getVerificationCode s email code with
  | none => (.err 400 "Invalid verification code", s)
  | some verificationCode =>
    if now > verificationCode.expiresAt then
      (.err 400 "Verification code expired", s)
    else
      let s1 := markVerificationCodeUsed s verificationCode.id
      let s2 :=
        match getUserByEmail s1 email with
        | some user =>
          createActivity s1
            { userId := some user.id, action := "Email verified",
              details := some "Pending admin approval", ipAddress := some ip }
        | none => s1
      (.ok "Email verified. Waiting for admin approval.", s2)

/-- Response of `POST /api/external/verify`. -/
inductive ExternalVerifyResult where
  | err (status : Nat) (message : String)
  | ok (message accessToken refreshToken : String) (user : PublicUser)
  deriving Repr, DecidableEq

/-- Handler body of `POST /api/external/verify` (routes file), after
`apiKeyMiddleware` has resolved `req.apiKey`: always auto-approves the
user and mints tokens for immediate login. -/
def externalVerify (s : Storage) (reqApiKey : ApiKey) (email code : String)
    (now freshTokId : Nat) (freshRefreshTok ip : String) :
    ExternalVerifyResult × Storage :=
  match getVerificationCode s email code with
  | none => (.err 400 "Invalid verification code", s)
  | some verificationCode =>
    if now > verificationCode.expiresAt then
      (.err 400 "Verification code expired", s)
    else
      let s1 := markVerificationCodeUsed s verificationCode.id
      match getUserByEmail s1 email with
      | none => (.err 400 "User not found", s1)
      | some user =>
        let s2 := (updateUser s1 user.id { noUserUpdates with status := some "active" }).1
        let s3 := createActivity s2
          { userId := some user.id, action := "Email verified and auto-approved",
            details := some ("App: " ++ reqApiKey.name), ipAddress := some ip }
        let accessToken := generateAccessToken user
        let s4 := createRefreshToken s3
          { id := freshTokId, userId := user.id, token := freshRefreshTok,
            expiresAt := getRefreshTokenExpiry now }
        let s5 := (updateUser s4 user.id
          { noUserUpdates with lastLoginAt := some (some now) }).1
        (.ok "Email verified and account approved" accessToken freshRefreshTok
          { withoutPassword user with status := "active" }, s5)

/-- `POST /api/external/verify` composed with its `apiKeyMiddleware` gate. -/
def externalVerifyRoute (s : Storage) (apiKeyHeader : Option String)
    (email code : String) (now freshTokId : Nat) (freshRefreshTok ip : String) :
    ExternalVerifyResult × Storage :=
  match apiKeyMiddleware s apiKeyHeader now with
  | (.okExternal _ apiKey, s1) =>
    externalVerify s1 apiKey email code now freshTokId freshRefreshTok ip
  | (.err st msg, s1) => (.err st msg, s1)
  | (_, s1) => (.err 500 "unreachable", s1)

/-- Response of the login endpoints. -/
inductive LoginResult where
  | err (status : Nat) (message : String)
  | ok (accessToken : String) (user : PublicUser) (cookieRefreshToken : String)
  deriving Repr, DecidableEq

/-- Handler of `POST /api/auth/login` (routes file). -/
def authLogin (s : Storage) (email password : String) (now freshTokId : Nat)
    (freshRefreshTok ip : String) : LoginResult × Storage :=
  match getUserByEmail s email with
  | none => (.err 401 "Invalid email or password", s)
  | some user =>
    if !comparePassword password user.password then
      (.err 401 "Invalid email or password", s)
    else if user.status == "pending" then (.err 403 "Account pending approval", s)
    else if user.status == "blocked" then (.err 403 "Account has been blocked", s)
    else
      let accessToken := generateAccessToken user
      let s1 := createRefreshToken s
        { id := freshTokId, userId := user.id, token := freshRefreshTok,
          expiresAt := getRefreshTokenExpiry now }
      let s2 := (updateUser s1 user.id
        { noUserUpdates with lastLoginAt := some (some now) }).1
      let s3 := createActivity s2
        { userId := some user.id, action := "User logged in",
          details := none, ipAddress := some ip }
      (.ok accessToken (withoutPassword user) freshRefreshTok, s3)

/-- Response of `POST /api/external/login` (refresh token in the body). -/
inductive ExternalLoginResult where
  | err (status : Nat) (message : String)
  | ok (accessToken refreshToken : String) (user : PublicUser)
  deriving Repr, DecidableEq

/-- Handler body of `POST /api/external/login` (routes file), after
`apiKeyMiddleware` has resolved `req.apiKey`. -/
def externalLogin (s : Storage) (reqApiKey : ApiKey) (email password : String)
    (now freshTokId : Nat) (freshRefreshTok ip : String) :
    ExternalLoginResult × Storage :=
  match getUserByEmail s email with
  | none => (.err 401 "Invalid email or password", s)
  | some user =>
    if !comparePassword password user.password then
      (.err 401 "Invalid email or password", s)
    else if user.status == "pending" then
      (.err 403 "Please verify your email first", s)
    else if user.status == "blocked" then (.err 403 "Account has been blocked", s)
    else
      let accessToken := generateAccessToken user
      let s1 := createRefreshToken s
        { id := freshTokId, userId := user.id, token := freshRefreshTok,
          expiresAt := getRefreshTokenExpiry now }
      let s2 := (updateUser s1 user.id
        { noUserUpdates with lastLoginAt := some (some now) }).1
      let s3 := createActivity s2
        { userId := some user.id, action := "User logged in via API",
          details := some ("App: " ++ reqApiKey.name), ipAddress := some ip }
      (.ok accessToken freshRefreshTok (withoutPassword user), s3)

/-- Response of `POST /api/auth/refresh`. -/
inductive RefreshResult where
  | err (status : Nat) (message : String)
  | ok (accessToken : String) (user : PublicUser)
  deriving Repr, DecidableEq

/-- Handler of `POST /api/auth/refresh` (routes file): reads the
refresh-token cookie. -/
def authRefresh (s : Storage) (cookie : Option String) (now : Nat) :
    RefreshResult × Storage :=
  match cookie with
  | none => (.err 401 "Refresh token required", s)
  | some refreshToken =>
    match getRefreshToken s refreshToken with
    | none => (.err 401 "Invalid refresh token", s)
    | some storedToken =>
      if now > storedToken.expiresAt then
        (.err 401 "Refresh token expired", deleteRefreshToken s refreshToken)
      else
        match getUser s storedToken.userId with
        | none => (.err 401 "User not found or inactive", s)
        | some user =>
          if !(user.status == "active") then (.err 401 "User not found or inactive", s)
          else (.ok (generateAccessToken user) (withoutPassword user), s)

/-- Handler body of `POST /api/auth/change-password` (routes file), after
`authMiddleware` has resolved `req.user`. -/
def changePassword (s : Storage) (user : User) (currentPassword newPassword ip : String) :
    MsgResult × Storage :=
  if !comparePassword currentPassword user.password then
    (.err 400 "Current password is incorrect", s)
  else
    let hashedPassword := hashPassword newPassword
    let s1 := (updateUser s user.id { noUserUpdates with password := some hashedPassword }).1
    let s2 := deleteUserRefreshTokens s1 user.id
    let s3 := createActivity s2
      { userId := some user.id, action := "Password changed",
        details := none, ipAddress := some ip }
    (.ok "Password changed successfully", s3)

/-- Handler body of `DELETE /api/users/:id` (routes file), after
`authMiddleware` and `adminOnly` have resolved an admin `req.user`. -/
def deleteUserRoute (s : Storage) (caller : User) (id : Nat) (ip : String) :
    MsgResult × Storage :=
  if id == caller.id then (.err 400 "Cannot delete your own account", s)
  else
    match getUser s id with
    | none => (.err 404 "User not found", s)
    | some user =>
      let s1 := (deleteUser s id).1
      let s2 := createActivity s1
        { userId := some caller.id, action := "User " ++ user.email ++ " deleted",
          details := none, ipAddress := some ip }
      (.ok "User deleted successfully", s2)

/-! ### Concrete fixtures used by counterexamples and witnesses -/

/-- An active External Signup Key with the auto-approve policy set. -/
def keyAuto : ExternalSignupKey := ⟨1, 10, "esk_auto", "partner", true, true, none⟩

/-- A state holding only `keyAuto`. -/
def sigState : Storage := ⟨[], [], [], [], [keyAuto], [], []⟩

/-! ### Claim theorems -/

/-- C1 (amended): a successful `POST /api/public/signup` under a valid,
active External Signup Key and a fresh email returns 201 and appends
exactly one account whose status is `active` when the key's auto-approve
policy is set and `pending` otherwise — the policy decides the creation
status itself. -/
theorem publicSignup_creation_status (s : Storage) (apiKey email password name : String)
    (now freshUserId freshCodeId : Nat) (freshCode ip : String) (k : ExternalSignupKey)
    (hk : getExternalSignupKey s apiKey = some k) (hact : k.isActive = true)
    (hfresh : getUserByEmail s email = none) :
    (publicSignup s (some apiKey) email password name now freshUserId freshCodeId freshCode ip).1
      = .created 201 "Verification code sent to email" ∧
    (publicSignup s (some apiKey) email password name now freshUserId freshCodeId freshCode ip).2.users
      = s.users ++
        [{ id := freshUserId, email := email, password := hashPassword password,
           name := name, role := "user",
           status := if k.autoApproveSignup then "active" else "pending",
           isDeleted := false, lastLoginAt := none }] := by
  simp [publicSignup, hk, hact, hfresh, createUser, createVerificationCode,
    updateExternalSignupKeyLastUsed, createAuditLog]

/-- Witness for C1's amended theorem at a concrete auto-approving key. -/
theorem publicSignup_creation_status_witness :
    (publicSignup sigState (some "esk_auto") "a@x.com" "pw1" "A" 0 100 200 "123456" "ip").2.users
      = [{ id := 100, email := "a@x.com", password := hashPassword "pw1",
           name := "A", role := "user", status := "active",
           isDeleted := false, lastLoginAt := none }] :=
  ((publicSignup_creation_status sigState "esk_auto" "a@x.com" "pw1" "A" 0 100 200 "123456" "ip"
    keyAuto (by decide) (by decide) (by decide)).2).trans (by decide)

/-- C1 (counterexample): under an auto-approving signup key the account is
created with status `active`, not `pending`, so the auto-approve policy does
affect the status the account is created with. -/
theorem publicSignup_pending_claim_counterexample :
    getExternalSignupKey sigState "esk_auto" = some keyAuto ∧
    keyAuto.isActive = true ∧ keyAuto.autoApproveSignup = true ∧
    getUserByEmail sigState "a@x.com" = none ∧
    (publicSignup sigState (some "esk_auto") "a@x.com" "pw1" "A" 0 100 200 "123456" "ip").1
      = .created 201 "Verification code sent to email" ∧
    (∃ u, getUserByEmail
        (publicSignup sigState (some "esk_auto") "a@x.com" "pw1" "A" 0 100 200 "123456" "ip").2
        "a@x.com" = some u ∧ u.status = "active" ∧ u.status ≠ "pending") := by
  refine ⟨by decide, by decide, by decide, by decide, by decide, ?_⟩
  exact ⟨{ id := 100, email := "a@x.com", password := hashPassword "pw1",
           name := "A", role := "user", status := "active",
           isDeleted := false, lastLoginAt := none },
    by decide, by decide, by decide⟩

/-- An unused verification code that expires at time 1000. -/
def vcExpired : VerificationCode := ⟨5, "b@x.com", "222222", 1000, false, none, none, false⟩

/-- A state holding only `vcExpired`. -/
def vcState : Storage := ⟨[], [vcExpired], [], [], [], [], []⟩

/-- C2 (counterexample): `POST /api/auth/verify` failures are not
observationally identical — an expired code and a mismatched code return
different messages. -/
theorem authVerify_flat_response_counterexample :
    (authVerify vcState "b@x.com" "222222" 2000 "ip").1 = .err 400 "Verification code expired" ∧
    (authVerify vcState "b@x.com" "999999" 2000 "ip").1 = .err 400 "Invalid verification code" ∧
    (authVerify vcState "b@x.com" "222222" 2000 "ip").1
      ≠ (authVerify vcState "b@x.com" "999999" 2000 "ip").1 :=
  ⟨by decide, by decide, by decide⟩

/-- C2 (amended): every failure of `POST /api/auth/verify` carries status
400; a mismatched `(email, code)` pair and an already-used code are
indistinguishable (both produce the invalid-code response), but an expired
code produces a distinct expired-specific message. -/
theorem authVerify_failure_statuses (s : Storage) (email code : String) (now : Nat) (ip : String) :
    (∀ st msg, (authVerify s email code now ip).1 = .err st msg → st = 400) ∧
    (getVerificationCode s email code = none →
      (authVerify s email code now ip).1 = .err 400 "Invalid verification code") ∧
    (∀ v, getVerificationCode s email code = some v → now > v.expiresAt →
      (authVerify s email code now ip).1 = .err 400 "Verification code expired") := by
  refine ⟨?_, ?_, ?_⟩
  · intro st msg h
    cases hvc : getVerificationCode s email code with
    | none =>
      simp [authVerify, hvc] at h
      exact h.1.symm
    | some v =>
      by_cases hexp : now > v.expiresAt
      · simp [authVerify, hvc, hexp] at h
        exact h.1.symm
      · simp [authVerify, hvc, hexp] at h
  · intro hnone
    simp [authVerify, hnone]
  · intro v hv hexp
    simp [authVerify, hv, hexp]

/-- Witness for C2's amended theorem: a mismatched code and an expired code
at concrete inputs. -/
theorem authVerify_failure_statuses_witness :
    (authVerify vcState "b@x.com" "999999" 2000 "ip").1 = .err 400 "Invalid verification code" ∧
    (authVerify vcState "b@x.com" "222222" 2000 "ip").1 = .err 400 "Verification code expired" :=
  ⟨(authVerify_failure_statuses vcState "b@x.com" "999999" 2000 "ip").2.1 (by decide),
   (authVerify_failure_statuses vcState "b@x.com" "222222" 2000 "ip").2.2 vcExpired
     (by decide) (by decide)⟩

/-- The admin account owning `extKey`. -/
def extOwner : User := ⟨1, "owner@x.com", hashPassword "opw", "O", "admin", "active", false, none⟩

/-- An active API key for the external surface. -/
def extKey : ApiKey := ⟨2, 1, "app", "ak_live", true, none⟩

/-- A pending user awaiting verification. -/
def pendUser : User := ⟨3, "c@x.com", hashPassword "cpw", "C", "user", "pending", false, none⟩

/-- A verification code for `pendUser` whose stored auto-approve flag is not set. -/
def vcNoAuto : VerificationCode := ⟨6, "c@x.com", "333333", 5000, false, none, none, false⟩

/-- A state for the external-verification scenario. -/
def extState : Storage := ⟨[extOwner, pendUser], [vcNoAuto], [], [extKey], [], [], []⟩

/-- After activating a user's status and then touching the same user's
last-login time, every row with that id has status `active`. -/
theorem users_after_activate_status (l : List User) (uid : Nat) (now : Nat) :
    ∀ u' ∈ (l.map (fun u =>
        if u.id == uid then applyUserUpdates { noUserUpdates with status := some "active" } u
        else u)).map (fun u =>
        if u.id == uid then applyUserUpdates { noUserUpdates with lastLoginAt := some (some now) } u
        else u),
      u'.id = uid → u'.status = "active" := by
  intro u' hmem hid
  simp only [List.mem_map] at hmem
  obtain ⟨w, ⟨w0, hw0, rfl⟩, rfl⟩ := hmem
  by_cases h0 : (w0.id == uid) = true
  · simp [h0, applyUserUpdates, noUserUpdates]
  · simp only [h0, if_neg, Bool.false_eq_true, ite_false] at hid ⊢
    exact absurd (by simpa using hid) (by simpa using h0)

/-- C3 (counterexample): a successful `POST /api/external/verify` on a code
whose stored auto-approve flag is `false` still flips the account to
`active` and mints access and refresh tokens — the flip is not conditional
on the flag. -/
theorem externalVerify_flag_only_counterexample :
    vcNoAuto.autoApprove = false ∧
    getVerificationCode extState "c@x.com" "333333" = some vcNoAuto ∧
    (externalVerifyRoute extState (some "ak_live") "c@x.com" "333333" 100 50 "rtok" "ip").1
      = .ok "Email verified and account approved" (generateAccessToken pendUser) "rtok"
          { withoutPassword pendUser with status := "active" } ∧
    (∃ u, getUser
        (externalVerifyRoute extState (some "ak_live") "c@x.com" "333333" 100 50 "rtok" "ip").2 3
        = some u ∧ u.status = "active") ∧
    (⟨50, 3, "rtok", getRefreshTokenExpiry 100⟩ : RefreshToken) ∈
      (externalVerifyRoute extState (some "ak_live") "c@x.com" "333333" 100 50 "rtok" "ip").2.refreshTokens := by
  refine ⟨by decide, by decide, by decide, ?_, by decide⟩
  exact ⟨⟨3, "c@x.com", hashPassword "cpw", "C", "user", "active", false, some 100⟩,
    by decide, by decide⟩

/-- C3 (amended): every successful `POST /api/external/verify` — regardless
of the stored code's auto-approve flag — flips the owning account's status
to `active`, persists a fresh refresh token for it, and returns the fresh
refresh token in the response. -/
theorem externalVerify_always_approves (s : Storage) (hdr : Option String)
    (email code : String) (now freshTokId : Nat) (freshRefreshTok ip : String)
    (msg atk rtk : String) (pu : PublicUser)
    (h : (externalVerifyRoute s hdr email code now freshTokId freshRefreshTok ip).1
      = .ok msg atk rtk pu) :
    rtk = freshRefreshTok ∧ pu.status = "active" ∧
    (∀ u' ∈ (externalVerifyRoute s hdr email code now freshTokId freshRefreshTok ip).2.users,
      u'.id = pu.id → u'.status = "active") ∧
    (⟨freshTokId, pu.id, freshRefreshTok, getRefreshTokenExpiry now⟩ : RefreshToken) ∈
      (externalVerifyRoute s hdr email code now freshTokId freshRefreshTok ip).2.refreshTokens := by
  cases hmw : apiKeyMiddleware s hdr now with
  | mk mr s1 =>
    cases mr with
    | err st m => simp [externalVerifyRoute, hmw] at h
    | okApiKey u => simp [externalVerifyRoute, hmw] at h
    | okJwt u p => simp [externalVerifyRoute, hmw] at h
    | okExternal u k =>
      simp only [externalVerifyRoute, hmw] at h ⊢
      cases hvc : getVerificationCode s1 email code with
      | none => simp [externalVerify, hvc] at h
      | some v =>
        by_cases hexp : now > v.expiresAt
        · simp [externalVerify, hvc, hexp] at h
        · cases hu : getUserByEmail (markVerificationCodeUsed s1 v.id) email with
          | none => simp [externalVerify, hvc, hexp, hu] at h
          | some user =>
            simp only [externalVerify, hvc, hu, if_neg hexp] at h ⊢
            simp only [ExternalVerifyResult.ok.injEq] at h
            obtain ⟨hmsg, hatk, hrtk, hpu⟩ := h
            refine ⟨hrtk.symm, ?_, ?_, ?_⟩
            · rw [← hpu]
            · rw [← hpu]
              intro u' hmem hid
              refine users_after_activate_status
                (markVerificationCodeUsed s1 v.id).users user.id now u' ?_ ?_
              · simpa [updateUser, createActivity, createRefreshToken] using hmem
              · simpa [withoutPassword] using hid
            · rw [← hpu]
              simp [updateUser, createActivity, createRefreshToken, withoutPassword,
                markVerificationCodeUsed]

/-- Witness for C3's amended theorem at the concrete no-auto-approve state. -/
theorem externalVerify_always_approves_witness :
    ((⟨50, 3, "rtok", getRefreshTokenExpiry 100⟩ : RefreshToken) ∈
      (externalVerifyRoute extState (some "ak_live") "c@x.com" "333333" 100 50 "rtok" "ip").2.refreshTokens) :=
  (externalVerify_always_approves extState (some "ak_live") "c@x.com" "333333" 100 50 "rtok" "ip"
    "Email verified and account approved" (generateAccessToken pendUser) "rtok"
    { withoutPassword pendUser with status := "active" } (by decide)).2.2.2

/-- C4: a successful `POST /api/auth/verify` leaves users, refresh tokens,
API keys, signup keys and audit logs untouched — in particular no account
status changes, whatever the stored code's autoApprove flag — and only
marks the matched code used and appends at most one activity record. -/
theorem authVerify_frame (s : Storage) (email code : String) (now : Nat) (ip : String)
    (msg : String) (h : (authVerify s email code now ip).1 = .ok msg) :
    (authVerify s email code now ip).2.users = s.users ∧
    (authVerify s email code now ip).2.refreshTokens = s.refreshTokens ∧
    (authVerify s email code now ip).2.apiKeys = s.apiKeys ∧
    (authVerify s email code now ip).2.externalSignupKeys = s.externalSignupKeys ∧
    (authVerify s email code now ip).2.auditLogs = s.auditLogs ∧
    (∃ v, getVerificationCode s email code = some v ∧
      (authVerify s email code now ip).2.verificationCodes
        = s.verificationCodes.map (fun w => if w.id == v.id then { w with used := true } else w)) ∧
    ((authVerify s email code now ip).2.activities = s.activities ∨
      ∃ a, (authVerify s email code now ip).2.activities = s.activities ++ [a]) := by
  cases hvc : getVerificationCode s email code with
  | none => simp [authVerify, hvc] at h
  | some v =>
    by_cases hexp : now > v.expiresAt
    · simp [authVerify, hvc, hexp] at h
    · cases hu : getUserByEmail (markVerificationCodeUsed s v.id) email with
      | none =>
        simp only [authVerify, hvc, hu, if_neg hexp]
        exact ⟨rfl, rfl, rfl, rfl, rfl, ⟨v, rfl, rfl⟩, Or.inl rfl⟩
      | some user =>
        simp only [authVerify, hvc, hu, if_neg hexp]
        exact ⟨rfl, rfl, rfl, rfl, rfl, ⟨v, rfl, rfl⟩, Or.inr ⟨_, rfl⟩⟩

/-- Witness for C4 at a concrete successful verification. -/
theorem authVerify_frame_witness :
    (authVerify extState "c@x.com" "333333" 100 "ip").2.users = extState.users :=
  (authVerify_frame extState "c@x.com" "333333" 100 "ip"
    "Email verified. Waiting for admin approval." (by decide)).1

/-- A state holding only the pending user, for the login counterexample. -/
def pwPendState : Storage := ⟨[pendUser], [], [], [], [], [], []⟩

/-- C5 (counterexample): a login against a `pending` account with a wrong
password answers 401 with the generic message, not the pending-specific
403 — the password is checked before the status. -/
theorem login_pending_wrong_password_counterexample :
    getUserByEmail pwPendState "c@x.com" = some pendUser ∧
    pendUser.status = "pending" ∧
    comparePassword "wrongpw" pendUser.password = false ∧
    (authLogin pwPendState "c@x.com" "wrongpw" 0 7 "r1" "ip").1
      = .err 401 "Invalid email or password" ∧
    (authLogin pwPendState "c@x.com" "wrongpw" 0 7 "r1" "ip").1
      ≠ .err 403 "Account pending approval" :=
  ⟨by decide, by decide, by decide, by decide, by decide⟩

/-- C5 (amended): for a login request whose password is correct, a
`pending` account gets 403 with the pending message, a `blocked` account
gets 403 with the blocked message, and an `active` account gets the
access token plus a newly persisted refresh-token row. -/
theorem authLogin_status_branches (s : Storage) (email password : String)
    (now freshTokId : Nat) (freshRefreshTok ip : String) (user : User)
    (hu : getUserByEmail s email = some user)
    (hpw : comparePassword password user.password = true) :
    (user.status = "pending" →
      (authLogin s email password now freshTokId freshRefreshTok ip).1
        = .err 403 "Account pending approval") ∧
    (user.status = "blocked" →
      (authLogin s email password now freshTokId freshRefreshTok ip).1
        = .err 403 "Account has been blocked") ∧
    (user.status = "active" →
      (authLogin s email password now freshTokId freshRefreshTok ip).1
        = .ok (generateAccessToken user) (withoutPassword user) freshRefreshTok ∧
      (⟨freshTokId, user.id, freshRefreshTok, getRefreshTokenExpiry now⟩ : RefreshToken) ∈
        (authLogin s email password now freshTokId freshRefreshTok ip).2.refreshTokens) := by
  refine ⟨fun hst => ?_, fun hst => ?_, fun hst => ?_⟩
  · simp [authLogin, hu, hpw, hst]
  · simp [authLogin, hu, hpw, hst,
      show (("blocked" : String) == "pending") = false from by decide]
  · constructor
    · simp [authLogin, hu, hpw, hst,
        show (("active" : String) == "pending") = false from by decide,
        show (("active" : String) == "blocked") = false from by decide]
    · simp [authLogin, hu, hpw, hst, createRefreshToken, updateUser, createActivity,
        show (("active" : String) == "pending") = false from by decide,
        show (("active" : String) == "blocked") = false from by decide]

/-- An active user able to log in. -/
def actUser : User := ⟨4, "d@x.com", hashPassword "dpw", "D", "user", "active", false, none⟩

/-- A state with a pending and an active user. -/
def loginState : Storage := ⟨[pendUser, actUser], [], [], [], [], [], []⟩

/-- Witness for C5's amended theorem: a concrete pending rejection and a
concrete successful login. -/
theorem authLogin_status_branches_witness :
    (authLogin loginState "c@x.com" "cpw" 0 7 "r1" "ip").1
      = .err 403 "Account pending approval" ∧
    (authLogin loginState "d@x.com" "dpw" 0 7 "r1" "ip").1
      = .ok (generateAccessToken actUser) (withoutPassword actUser) "r1" :=
  ⟨(authLogin_status_branches loginState "c@x.com" "cpw" 0 7 "r1" "ip" pendUser
      (by decide) (by decide)).1 rfl,
   ((authLogin_status_branches loginState "d@x.com" "dpw" 0 7 "r1" "ip" actUser
      (by decide) (by decide)).2.2 rfl).1⟩

/-- C6: after a successful password change, no refresh token of the account
survives, and refreshing with any token string that pre-change belonged
only to this account fails 401. -/
theorem changePassword_revokes_refresh_tokens (s : Storage) (user : User)
    (cur nw ip tok : String) (now2 : Nat)
    (hpw : comparePassword cur user.password = true)
    (howner : ∀ t ∈ s.refreshTokens, t.token = tok → t.userId = user.id) :
    (changePassword s user cur nw ip).1 = .ok "Password changed successfully" ∧
    (∀ t ∈ (changePassword s user cur nw ip).2.refreshTokens, t.userId ≠ user.id) ∧
    (authRefresh (changePassword s user cur nw ip).2 (some tok) now2).1
      = .err 401 "Invalid refresh token" := by
  have hpost : (changePassword s user cur nw ip).2.refreshTokens
      = s.refreshTokens.filter (fun t => !(t.userId == user.id)) := by
    simp [changePassword, hpw, updateUser, deleteUserRefreshTokens, createActivity]
  have hnone : getRefreshToken (changePassword s user cur nw ip).2 tok = none := by
    unfold getRefreshToken
    rw [hpost]
    have hempty : ((s.refreshTokens.filter (fun t => !(t.userId == user.id))).filter
        (fun t => t.token == tok)) = [] := by
      rw [List.filter_eq_nil_iff]
      intro t ht
      have hmem := List.mem_filter.mp ht
      intro htok
      have htok' : t.token = tok := by simpa using htok
      have huid := howner t hmem.1 htok'
      have := hmem.2
      simp [huid] at this
    rw [hempty]
    rfl
  refine ⟨by simp [changePassword, hpw], ?_, ?_⟩
  · intro t ht
    rw [hpost] at ht
    have := (List.mem_filter.mp ht).2
    simpa using this
  · simp [authRefresh, hnone]

/-- An active user with one stored refresh token, for the C6 witness. -/
def cpUser : User := ⟨5, "e@x.com", hashPassword "epw", "E", "user", "active", false, none⟩

/-- The pre-change refresh token of `cpUser`. -/
def cpTok : RefreshToken := ⟨9, 5, "oldtok", 99999⟩

/-- A state with `cpUser` and `cpTok`. -/
def cpState : Storage := ⟨[cpUser], [], [cpTok], [], [], [], []⟩

/-- Witness for C6 at a concrete account and token. -/
theorem changePassword_revokes_refresh_tokens_witness :
    (authRefresh (changePassword cpState cpUser "epw" "np" "ip").2 (some "oldtok") 0).1
      = .err 401 "Invalid refresh token" :=
  (changePassword_revokes_refresh_tokens cpState cpUser "epw" "np" "ip" "oldtok" 0
    (by decide) (by decide)).2.2

/-- C7: in `authMiddleware` a `nano_`-prefixed bearer credential only ever
fails with 401, while a signed access token fails 401 on signature/expiry
or a missing account but 403 when the account exists and is not active. -/
theorem authMiddleware_failure_statuses (s : Storage) (hs t : String)
    (verifyTok : String → Option TokenPayload) (now : Nat)
    (hbearer : strStartsWith hs "Bearer " = true) (hdrop : strDrop hs 7 = t) :
    (strStartsWith t "nano_" = true →
      ∀ st msg, (authMiddleware s (some hs) verifyTok now).1 = .err st msg → st = 401) ∧
    (strStartsWith t "nano_" = false →
      (verifyTok t = none →
        (authMiddleware s (some hs) verifyTok now).1 = .err 401 "Invalid or expired token") ∧
      (∀ p, verifyTok t = some p →
        (getUser s p.userId = none →
          (authMiddleware s (some hs) verifyTok now).1 = .err 401 "User not found") ∧
        (∀ u, getUser s p.userId = some u → u.status ≠ "active" →
          (authMiddleware s (some hs) verifyTok now).1 = .err 403 "Account not active"))) := by
  constructor
  · intro hnano st msg h
    simp only [authMiddleware, hbearer, hdrop, hnano] at h
    simp only [Bool.not_true, Bool.false_eq_true, if_false, if_true, ite_true, ite_false] at h
    cases hk : getApiKeyByKey s t with
    | none => rw [hk] at h; simp at h; exact h.1.symm
    | some k =>
      rw [hk] at h
      cases hact : k.isActive with
      | false => simp [hact] at h; exact h.1.symm
      | true =>
        simp only [hact, Bool.not_true, Bool.false_eq_true, if_false, ite_false] at h
        cases hgu : getUser (updateApiKey s k.id
            { noApiKeyUpdates with lastUsedAt := some (some now) }).1 k.userId with
        | none => rw [hgu] at h; simp at h; exact h.1.symm
        | some u =>
          rw [hgu] at h
          cases hstat : u.status == "active" with
          | false => simp [hstat] at h; exact h.1.symm
          | true => simp [hstat] at h
  · intro hnn
    refine ⟨fun hv => ?_, fun p hp => ⟨fun hgu => ?_, fun u hgu hst => ?_⟩⟩
    · simp [authMiddleware, hbearer, hdrop, hnn, hv]
    · simp [authMiddleware, hbearer, hdrop, hnn, hp, hgu]
    · simp [authMiddleware, hbearer, hdrop, hnn, hp, hgu, hst]

/-- Witness for C7: a rejected signed token and a rejected `nano_` key. -/
theorem authMiddleware_failure_statuses_witness :
    (authMiddleware loginState (some "Bearer xyz") (fun _ => none) 0).1
      = .err 401 "Invalid or expired token" ∧
    ∀ st msg, (authMiddleware loginState (some "Bearer nano_a") (fun _ => none) 0).1
      = .err st msg → st = 401 :=
  ⟨((authMiddleware_failure_statuses loginState "Bearer xyz" "xyz" (fun _ => none) 0
      (by decide) (by decide)).2 (by decide)).1 rfl,
   (authMiddleware_failure_statuses loginState "Bearer nano_a" "nano_a" (fun _ => none) 0
      (by decide) (by decide)).1 (by decide)⟩

/-- Soft deletion removes the row from id lookups: filtering the updated
list for a non-deleted row with the deleted id finds nothing. -/
theorem getUser_after_softDelete (l : List User) (id : Nat) :
    ((l.map (fun u => if u.id == id then { u with isDeleted := true } else u)).filter
      (fun u => u.id == id && u.isDeleted == false)) = [] := by
  rw [List.filter_eq_nil_iff]
  intro a ha
  simp only [List.mem_map] at ha
  obtain ⟨w, hw, rfl⟩ := ha
  cases h0 : w.id == id with
  | false => simp [h0]
  | true => simp [h0]

/-- Soft deletion removes the row from email lookups, provided the email
belonged only to the deleted id (the unique-email invariant). -/
theorem getUserByEmail_after_softDelete (l : List User) (id : Nat) (email : String)
    (hinv : ∀ u' ∈ l, u'.email = email → u'.id = id) :
    ((l.map (fun u => if u.id == id then { u with isDeleted := true } else u)).filter
      (fun u => u.email == email && u.isDeleted == false)) = [] := by
  rw [List.filter_eq_nil_iff]
  intro a ha
  simp only [List.mem_map] at ha
  obtain ⟨w, hw, rfl⟩ := ha
  cases h0 : w.id == id with
  | true => simp [h0]
  | false =>
    simp only [h0, Bool.false_eq_true, if_false]
    intro hpred
    have hem : w.email = email := by
      simp only [Bool.and_eq_true, beq_iff_eq] at hpred
      exact hpred.1
    have := hinv w hw hem
    simp [this] at h0

/-- C8: `DELETE /api/users/:id` rejects a self-target without touching the
state; otherwise it soft-deletes only — the row count is preserved, the
row survives with its soft-delete flag set, and the target disappears
from id and (given unique emails) email lookups. -/
theorem deleteUserRoute_spec (s : Storage) (caller : User) (id : Nat) (ip : String)
    (hadmin : caller.role = "admin") :
    (id = caller.id →
      (deleteUserRoute s caller id ip).1 = .err 400 "Cannot delete your own account" ∧
      (deleteUserRoute s caller id ip).2 = s) ∧
    (∀ user, id ≠ caller.id → getUser s id = some user →
      (deleteUserRoute s caller id ip).1 = .ok "User deleted successfully" ∧
      (deleteUserRoute s caller id ip).2.users
        = s.users.map (fun u => if u.id == id then { u with isDeleted := true } else u) ∧
      (deleteUserRoute s caller id ip).2.users.length = s.users.length ∧
      { user with isDeleted := true } ∈ (deleteUserRoute s caller id ip).2.users ∧
      getUser (deleteUserRoute s caller id ip).2 id = none ∧
      ((∀ u' ∈ s.users, u'.email = user.email → u'.id = id) →
        getUserByEmail (deleteUserRoute s caller id ip).2 user.email = none)) := by
  constructor
  · intro hself
    constructor <;> simp [deleteUserRoute, hself]
  · intro user hne hgu
    have hne' : (id == caller.id) = false := by simpa using hne
    have husers : (deleteUserRoute s caller id ip).2.users
        = s.users.map (fun u => if u.id == id then { u with isDeleted := true } else u) := by
      simp [deleteUserRoute, hne', hgu, deleteUser, createActivity]
    have hmemf : user ∈ s.users.filter (fun u => u.id == id && u.isDeleted == false) := by
      have hgu' : (s.users.filter
          (fun u => u.id == id && u.isDeleted == false)).head? = some user := hgu
      exact List.mem_of_mem_head? (Option.mem_def.mpr hgu')
    have hmem : user ∈ s.users := (List.mem_filter.mp hmemf).1
    have huid : (user.id == id) = true := by
      have hpred := (List.mem_filter.mp hmemf).2
      simp only [Bool.and_eq_true] at hpred
      exact hpred.1
    refine ⟨by simp [deleteUserRoute, hne', hgu], husers, ?_, ?_, ?_, ?_⟩
    · rw [husers, List.length_map]
    · rw [husers]
      exact List.mem_map.mpr ⟨user, hmem, by simp [huid]⟩
    · unfold getUser
      rw [husers, getUser_after_softDelete]
      rfl
    · intro hinv
      unfold getUserByEmail
      rw [husers, getUserByEmail_after_softDelete s.users id user.email hinv]
      rfl

/-- Witness for C8: self-deletion rejected; soft-deleted target vanishes
from id lookups. -/
theorem deleteUserRoute_spec_witness :
    (deleteUserRoute extState extOwner 1 "ip").1 = .err 400 "Cannot delete your own account" ∧
    getUser (deleteUserRoute extState extOwner 3 "ip").2 3 = none :=
  ⟨((deleteUserRoute_spec extState extOwner 1 "ip" (by decide)).1 rfl).1,
   ((deleteUserRoute_spec extState extOwner 3 "ip" (by decide)).2 pendUser
      (by decide) (by decide)).2.2.2.2.1⟩

/-- C9: with a wrong password both login endpoints answer the generic 401
and leave the state unchanged, whatever the account's status — so accounts
differing only in status are indistinguishable to such a caller. -/
theorem login_wrong_password_uniform (s : Storage) (k : ApiKey) (email password : String)
    (now freshTokId : Nat) (freshRefreshTok ip : String) (user : User)
    (hu : getUserByEmail s email = some user)
    (hpw : comparePassword password user.password = false) :
    (authLogin s email password now freshTokId freshRefreshTok ip).1
      = .err 401 "Invalid email or password" ∧
    (authLogin s email password now freshTokId freshRefreshTok ip).2 = s ∧
    (externalLogin s k email password now freshTokId freshRefreshTok ip).1
      = .err 401 "Invalid email or password" ∧
    (externalLogin s k email password now freshTokId freshRefreshTok ip).2 = s := by
  refine ⟨?_, ?_, ?_, ?_⟩ <;> simp [authLogin, externalLogin, hu, hpw]

/-- Witness for C9 at a pending account with a wrong password. -/
theorem login_wrong_password_uniform_witness :
    (authLogin loginState "c@x.com" "bad" 0 7 "r1" "ip").1
      = .err 401 "Invalid email or password" ∧
    (externalLogin loginState extKey "c@x.com" "bad" 0 7 "r1" "ip").1
      = .err 401 "Invalid email or password" :=
  ⟨(login_wrong_password_uniform loginState extKey "c@x.com" "bad" 0 7 "r1" "ip" pendUser
      (by decide) (by decide)).1,
   (login_wrong_password_uniform loginState extKey "c@x.com" "bad" 0 7 "r1" "ip" pendUser
      (by decide) (by decide)).2.2.1⟩

/-- After the middleware's `updateApiKey` call, every row with the key's id
carries the new last-used time. -/
theorem lastUsed_after_mw_update (l : List ApiKey) (kid now : Nat) :
    ∀ k' ∈ l.map (fun x => if x.id == kid then
        applyApiKeyUpdates { noApiKeyUpdates with lastUsedAt := some (some now) } x else x),
      k'.id = kid → k'.lastUsedAt = some now := by
  intro k' hmem hid
  simp only [List.mem_map] at hmem
  obtain ⟨w, hw, rfl⟩ := hmem
  cases h0 : w.id == kid with
  | true => simp [h0, applyApiKeyUpdates, noApiKeyUpdates]
  | false =>
    simp only [h0, Bool.false_eq_true, if_false] at hid
    simp [hid] at h0

/-- C10: both middlewares persist the API key's last-used time before the
owner check, so whenever the presented key exists and is active the
post-state carries `lastUsedAt = now` for that key — whatever the outcome,
including the 401 rejections for a missing or inactive owner. -/
theorem apiKey_lastUsed_updated_despite_rejection (s : Storage) (hdr hs t : String)
    (verifyTok : String → Option TokenPayload) (now : Nat) (k k2 : ApiKey)
    (hk : getApiKeyByKey s hdr = some k) (hact : k.isActive = true)
    (hbearer : strStartsWith hs "Bearer " = true) (hdrop : strDrop hs 7 = t)
    (hnano : strStartsWith t "nano_" = true)
    (hk2 : getApiKeyByKey s t = some k2) (hact2 : k2.isActive = true) :
    (∀ k' ∈ (apiKeyMiddleware s (some hdr) now).2.apiKeys, k'.id = k.id →
      k'.lastUsedAt = some now) ∧
    (∀ k' ∈ (authMiddleware s (some hs) verifyTok now).2.apiKeys, k'.id = k2.id →
      k'.lastUsedAt = some now) := by
  constructor
  · have hpost : (apiKeyMiddleware s (some hdr) now).2.apiKeys
        = s.apiKeys.map (fun x => if x.id == k.id then
            applyApiKeyUpdates { noApiKeyUpdates with lastUsedAt := some (some now) } x
          else x) := by
      simp only [apiKeyMiddleware, hk, hact, Bool.not_true, Bool.false_eq_true,
        if_false, ite_false]
      split <;> first
        | (split <;> simp [updateApiKey])
        | simp [updateApiKey]
    rw [hpost]
    exact lastUsed_after_mw_update s.apiKeys k.id now
  · have hpost : (authMiddleware s (some hs) verifyTok now).2.apiKeys
        = s.apiKeys.map (fun x => if x.id == k2.id then
            applyApiKeyUpdates { noApiKeyUpdates with lastUsedAt := some (some now) } x
          else x) := by
      simp only [authMiddleware, hbearer, hdrop, hnano, hk2, hact2, Bool.not_true,
        Bool.false_eq_true, if_false, ite_false, if_true, ite_true]
      split <;> first
        | (split <;> simp [updateApiKey])
        | simp [updateApiKey]
    rw [hpost]
    exact lastUsed_after_mw_update s.apiKeys k2.id now

/-- An active API key whose owning account does not exist. -/
def orphanKey : ApiKey := ⟨8, 77, "app2", "nano_orphan", true, none⟩

/-- A state holding only `orphanKey`. -/
def orphanState : Storage := ⟨[], [], [], [orphanKey], [], [], []⟩

/-- Witness for C10: the request is rejected 401, yet the key's last-used
time is updated. -/
theorem apiKey_lastUsed_updated_despite_rejection_witness :
    (apiKeyMiddleware orphanState (some "nano_orphan") 5).1
      = .err 401 "API key owner not found or inactive" ∧
    ∀ k' ∈ (apiKeyMiddleware orphanState (some "nano_orphan") 5).2.apiKeys,
      k'.id = orphanKey.id → k'.lastUsedAt = some 5 :=
  ⟨by decide,
   (apiKey_lastUsed_updated_despite_rejection orphanState "nano_orphan"
      "Bearer nano_orphan" "nano_orphan" (fun _ => none) 5 orphanKey orphanKey
      (by decide) (by decide) (by decide) (by decide) (by decide) (by decide)
      (by decide)).1⟩

end NanoAdmin
